import Mathlib

/-!
Verification of the client-side session-identity and table-state
synchronization layer of the Poker-Bot webapp frontend.

The embedding models, from the TypeScript sources:
- the query-parameter assembly (`URLSearchParams.set` / `.has`) used by
  `buildUrl` and `apiGet`;
- the request gateway `apiGet` (webapp-frontend/src/lib/api.ts) with its
  one-shot 401 fallback retry, and the `request` helper of the
  api-client variant (dev fallback, four-way status classification);
- the `apiTables` payload normalization (bare array vs wrapper object);
- the ActionGate helpers `isMyTurn`, `getCurrentPlayer`, `canCheck`,
  `callAmount` and the `handleAction` raise guard of the App component;
- the polling lifecycle of the App component that owns
  `selectedGame` / `gameState` / `pollingRef` (select, tick, resolve,
  leave), as a step function over an explicit state record.
-/

namespace PokerBot

/-- JSON values as delivered by the backend. -/
inductive Json where
  | null : Json
  | bool (b : Bool) : Json
  | num (n : Int) : Json
  | str (s : String) : Json
  | arr (xs : List Json) : Json
  | obj (fields : List (String × Json)) : Json

/-- `URLSearchParams.set`: replace the value of an existing key, else append. -/
def uspSet : List (String × String) → String → String → List (String × String)
  | [], k, v => [(k, v)]
  | (k', v') :: rest, k, v =>
      if k' = k then (k, v) :: rest else (k', v') :: uspSet rest k v

/-- `URLSearchParams.has`. -/
def uspHas (l : List (String × String)) (k : String) : Bool :=
  l.any (fun p => p.1 = k)

/-- `URLSearchParams.get`. -/
def uspGet (l : List (String × String)) (k : String) : Option String :=
  (l.find? (fun p => p.1 = k)).map (·.2)

/-- `for (const [k, v] of Object.entries(query)) usp.set(k, String(v))`. -/
def foldQuery (query : List (String × String)) : List (String × String) :=
  query.foldl (fun acc kv => uspSet acc kv.1 kv.2) []

/-- The observable shape of one outgoing HTTP request: the path, the
`X-Telegram-Init-Data` header (when set) and the assembled query string. -/
structure ReqShape where
  path : String
  tgHeader : Option String
  params : List (String × String)
  deriving DecidableEq

/-- An HTTP response as the fetch wrapper consumes it. -/
structure HttpResponse where
  status : Nat
  contentTypeJson : Bool
  body : Json
  bodyText : String

/-- What `fetch` yields: a response, or a thrown transport exception. -/
inductive TransportResult where
  | resp (r : HttpResponse)
  | exn (e : String)

/-- `res.ok`. -/
def HttpResponse.ok (r : HttpResponse) : Bool :=
  200 ≤ r.status && r.status ≤ 299

/-- Everything a gateway call can yield to its caller: the four typed
outcomes (`Success` / `Unauthenticated` / `NotFound` / `Error`) or a raw
transport exception that propagated uncaught. -/
inductive Outcome where
  | success (body : Json)
  | authRequired (detail : String)
  | notFound (detail : String)
  | httpError (status : Nat) (detail : String)
  | rawExn (e : String)

/-- Whether an outcome is one of the four typed `RequestOutcome` variants
(rather than a raw transport exception escaping the gateway). -/
def Outcome.isTyped : Outcome → Bool
  | .rawExn _ => false
  | _ => true

/-- Query assembly of `buildUrl` (api-client variants) and inlined in
`apiGet`: merge the caller query, then outside Telegram force
`user_id=1` unless the caller already supplied one. -/
def buildUrl (initData : Option String) (query : List (String × String)) :
    List (String × String) :=
  let usp := foldQuery query
  if initData.isNone && !uspHas usp "user_id" then uspSet usp "user_id" "1" else usp

/-- Classification performed by `apiGet` after the (possibly retried)
fetch: 401, then any other non-2xx, then content-type sniffing. -/
def classifyGet (r : HttpResponse) : Outcome :=
  if r.status = 401 then .authRequired r.bodyText
  else if !r.ok then .httpError r.status r.bodyText
  else if !r.contentTypeJson then .success (Json.obj [])
  else .success r.body

/-- `apiGet` from webapp-frontend/src/lib/api.ts, as a function of the
ambient Telegram init data and a transport oracle. Returns the final
outcome together with the list of HTTP round trips actually issued.
A transport exception is not caught and surfaces as `rawExn`. -/
def apiGet (initData : Option String) (path : String)
    (query : List (String × String)) (transport : ReqShape → TransportResult) :
    Outcome × List ReqShape :=
  let usp := buildUrl initData query
  let req1 : ReqShape := ⟨path, initData, usp⟩
  match transport req1 with
  | .exn e => (.rawExn e, [req1])
  | .resp r1 =>
      if r1.status = 401 && initData.isSome && !uspHas usp "user_id" then
        let req2 : ReqShape := ⟨path, initData, uspSet usp "user_id" "1"⟩
        match transport req2 with
        | .exn e => (.rawExn e, [req1, req2])
        | .resp r2 => (classifyGet r2, [req1, req2])
      else (classifyGet r1, [req1])

/-- `request` from the api-client variant: single attempt, four-way
classification (401, 404, other non-2xx, 2xx with content-type sniff).
A transport exception is not caught and surfaces as `rawExn`. -/
def request (initData : Option String) (path : String)
    (query : List (String × String)) (transport : ReqShape → TransportResult) :
    Outcome :=
  let req : ReqShape := ⟨path, initData, buildUrl initData query⟩
  match transport req with
  | .exn e => .rawExn e
  | .resp r =>
      if r.status = 401 then .authRequired r.bodyText
      else if r.status = 404 then .notFound r.bodyText
      else if !r.ok then .httpError r.status r.bodyText
      else if !r.contentTypeJson then .success (Json.obj [])
      else .success r.body

/-- Payload normalization of `apiTables`: accept a bare array or a
`tables` wrapper field, anything else yields the empty list. -/
def normalizeTables : Json → List Json
  | .arr xs => xs
  | .obj fields =>
      match (fields.find? (fun p => p.1 = "tables")).map (fun p => p.2) with
      | some (Json.arr xs) => xs
      | _ => []
  | _ => []

/-- `apiTables`: fetch `tables` through the gateway and normalize the
payload shape. -/
def apiTables (initData : Option String)
    (transport : ReqShape → TransportResult) : Except Outcome (List Json) :=
  match request initData "tables" [] transport with
  | .success body => .ok (normalizeTables body)
  | o => .error o

/-- `Player` interface of the App component. -/
structure Player where
  id : Int
  name : String
  chips : Int
  cards : List String
  current_bet : Int
  folded : Bool
  status : String
  deriving DecidableEq

/-- `GameState` interface of the App component. -/
structure GameState where
  game_id : String
  players : List Player
  pot : Int
  community_cards : List String
  current_turn : Int
  phase : String
  current_bet : Int
  small_blind : Int
  big_blind : Int
  ready_players : List Int
  winner_id : Option Int
  deriving DecidableEq

/-- `isMyTurn` from the App component: bounds-check `current_turn`, then
compare the seated player id with the local user id. -/
def isMyTurn (gameState : Option GameState) (currentUserId : Option Int) : Bool :=
  match gameState, currentUserId with
  | some gs, some uid =>
      if gs.current_turn < 0 ∨ (gs.players.length : Int) ≤ gs.current_turn then false
      else
        match gs.players.get? gs.current_turn.toNat with
        | some p => p.id = uid
        | none => false
  | _, _ => false

/-- `getCurrentPlayer` from the App component. -/
def getCurrentPlayer (gameState : Option GameState) (currentUserId : Option Int) :
    Option Player :=
  match gameState, currentUserId with
  | some gs, some uid => gs.players.find? (fun p => p.id = uid)
  | _, _ => none

/-- `canCheck` from the App component. -/
def canCheck (gameState : Option GameState) (currentUserId : Option Int) : Bool :=
  match getCurrentPlayer gameState currentUserId, gameState with
  | some p, some gs => p.current_bet = gs.current_bet
  | _, _ => false

/-- `callAmount` from the App component. -/
def callAmount (gameState : Option GameState) (currentUserId : Option Int) : Int :=
  match getCurrentPlayer gameState currentUserId, gameState with
  | some p, some gs => max 0 (gs.current_bet - p.current_bet)
  | _, _ => 0

/-- The client-side guard of `handleAction`: with no game state nothing is
sent; a raise below the big blind is rejected locally; every other action
is dispatched to the network. Returns whether the request is sent. -/
def handleActionSendsRequest (gameState : Option GameState) (action : String)
    (raiseAmount : Int) : Bool :=
  match gameState with
  | none => false
  | some gs => !(action = "raise" && raiseAmount < gs.big_blind)

/-- View state of the App component. -/
inductive View where
  | lobby
  | game
  deriving DecidableEq

/-- State owned by the polling App component: the current view, the
selected game, the published game state, the surfaced error, the armed
interval (with the game id captured at arm time) and the tags of the
in-flight `fetchGameState` calls. -/
structure SyncState where
  view : View
  selectedGame : Option String
  gameState : Option GameState
  errorMsg : Option String
  intervalId : Option String
  inflight : List String
  deriving DecidableEq

/-- Resolution of one `fetchGameState` fetch: an HTTP response carrying a
status and (for 2xx) a parsed game state, or a thrown transport error. -/
inductive PollResult where
  | resp (status : Nat) (data : GameState)
  | exn (e : String)
  deriving DecidableEq

/-- External events driving the component: a successful join selecting a
game, a timer tick, the resolution of an in-flight fetch, leaving. -/
inductive Event where
  | selectGame (id : String)
  | tick
  | resolve (tag : String) (r : PollResult)
  | leaveGame
  deriving DecidableEq

/-- The polling `useEffect` re-run after its dependencies changed: clear
any armed interval; when a game is selected and the view shows the game,
issue an immediate `fetchGameState` and arm the interval with the
captured game id. -/
def applyEffect (s : SyncState) : SyncState :=
  match s.selectedGame, s.view with
  | some id, View.game => { s with intervalId := some id, inflight := s.inflight ++ [id] }
  | _, _ => { s with intervalId := none }

/-- The continuation of `fetchGameState` once its fetch resolves: a 2xx
response replaces the published state and clears the error; a 404 surfaces
the error, deselects the game and returns the view to the lobby (the
effect re-run then disarms the interval); any other status or a transport
error does nothing. The current table selection is never consulted. -/
def fetchGameStateOnResolve (s : SyncState) (r : PollResult) : SyncState :=
  match r with
  | .resp status data =>
      if 200 ≤ status ∧ status ≤ 299 then
        { s with gameState := some data, errorMsg := none }
      else if status = 404 then
        applyEffect { s with errorMsg := some "Game not found",
                             selectedGame := none, view := View.lobby }
      else s
  | .exn _ => s

/-- One step of the component under an external event. -/
def step (s : SyncState) : Event → SyncState
  | .selectGame id =>
      applyEffect { s with selectedGame := some id, view := View.game }
  | .tick =>
      match s.intervalId with
      | some id => { s with inflight := s.inflight ++ [id] }
      | none => s
  | .resolve tag r =>
      if tag ∈ s.inflight then
        fetchGameStateOnResolve { s with inflight := s.inflight.erase tag } r
      else s
  | .leaveGame =>
      applyEffect { s with intervalId := none, view := View.lobby,
                           selectedGame := none, gameState := none }

/-- Initial component state. -/
def initState : SyncState :=
  ⟨View.lobby, none, none, none, none, []⟩

/-- Run a sequence of events from the initial state. -/
def run (events : List Event) : SyncState :=
  events.foldl step initState

/-! Concrete fixtures used by witnesses and counterexamples. -/

/-- A player with the given id, chip stack and current bet. -/
def mkPlayer (i chips bet : Int) : Player :=
  ⟨i, "p", chips, [], bet, false, "normal"⟩

/-- Three seated players with ids 1, 2, 7; the turn is on index 2. -/
def gsThreePlayers : GameState :=
  { game_id := "g1", players := [mkPlayer 1 100 0, mkPlayer 2 100 0, mkPlayer 7 100 0],
    pot := 0, community_cards := [], current_turn := 2, phase := "preflop",
    current_bet := 0, small_blind := 10, big_blind := 20, ready_players := [],
    winner_id := none }

/-- A game state published for table T1. -/
def gsDemo : GameState :=
  { game_id := "T1", players := [mkPlayer 1 100 0], pot := 50, community_cards := [],
    current_turn := 0, phase := "flop", current_bet := 0, small_blind := 10,
    big_blind := 20, ready_players := [], winner_id := none }

/-- Big blind 20 and the local player (id 7) holding only 15 chips. -/
def gsShortStack : GameState :=
  { game_id := "g2", players := [mkPlayer 7 15 0], pot := 0, community_cards := [],
    current_turn := 0, phase := "preflop", current_bet := 0, small_blind := 10,
    big_blind := 20, ready_players := [], winner_id := none }

/-- A single seated player with id 1. -/
def gsOnePlayer : GameState :=
  { game_id := "g3", players := [mkPlayer 1 100 10], pot := 0, community_cards := [],
    current_turn := 0, phase := "preflop", current_bet := 30, small_blind := 10,
    big_blind := 20, ready_players := [], winner_id := none }

/-- A component state polling table T2 with one stale T1 fetch in flight. -/
def sPolling : SyncState :=
  ⟨View.game, some "T2", none, none, some "T2", ["T1"]⟩

/-- A component state polling table T1 with published state and one fetch
in flight. -/
def sPollingT1 : SyncState :=
  ⟨View.game, some "T1", some gsDemo, none, some "T1", ["T1"]⟩

/-- A backend replying 401 until the dev identity parameter is present. -/
def tpUntilDevId : ReqShape → TransportResult := fun q =>
  if uspHas q.params "user_id" then .resp ⟨200, true, Json.obj [], ""⟩
  else .resp ⟨401, false, Json.null, "unauth"⟩

/-- A backend always replying 200 with an empty JSON object. -/
def tpOk : ReqShape → TransportResult := fun _ =>
  .resp ⟨200, true, Json.obj [], ""⟩

/-- A transport whose fetch always throws (network failure). -/
def tpThrow : ReqShape → TransportResult := fun _ =>
  .exn "TypeError: Failed to fetch"

/-- A backend always replying 500. -/
def tpServerError : ReqShape → TransportResult := fun _ =>
  .resp ⟨500, false, Json.null, "boom"⟩

/-- A backend replying to the table listing with a bare array payload. -/
def tpArrPayload : ReqShape → TransportResult := fun _ =>
  .resp ⟨200, true, Json.arr [Json.str "t"], ""⟩

/-- A backend replying to the table listing with a wrapper object payload. -/
def tpWrappedPayload : ReqShape → TransportResult := fun _ =>
  .resp ⟨200, true, Json.obj [("tables", Json.arr [Json.str "t"])], ""⟩

/-! Helper lemmas about query-parameter assembly. -/

theorem uspHas_set_same (l : List (String × String)) (k v : String) :
    uspHas (uspSet l k v) k = true := by
  induction l with
  | nil => simp [uspSet, uspHas]
  | cons hd tl ih =>
      by_cases h : hd.1 = k
      · simp [uspSet, h, uspHas]
      · simpa [uspSet, h, uspHas] using ih

theorem uspGet_set_same (l : List (String × String)) (k v : String) :
    uspGet (uspSet l k v) k = some v := by
  induction l with
  | nil => simp [uspSet, uspGet]
  | cons hd tl ih =>
      by_cases h : hd.1 = k
      · simp [uspSet, h, uspGet]
      · simpa [uspSet, h, uspGet, List.find?] using ih

theorem uspHas_of_uspGet (l : List (String × String)) (k v : String)
    (h : uspGet l k = some v) : uspHas l k = true := by
  unfold uspGet at h
  cases hf : l.find? (fun p => p.1 = k) with
  | none => rw [hf] at h; cases h
  | some p =>
      have hp := List.find?_some hf
      have hm := List.mem_of_find?_eq_some hf
      unfold uspHas
      rw [List.any_eq_true]
      exact ⟨p, hm, hp⟩

/-! Claim theorems. -/

/-- C8: for every game state and local player id, `isMyTurn` is true iff
`current_turn` is a valid index into `players` and the player seated there
has the local id; in particular with players `[1, 2, 7]`, turn index 2 and
local id 7 it is true. -/
theorem isMyTurn_iff_valid_turn_and_id :
    (∀ (gs : GameState) (uid : Int),
        isMyTurn (some gs) (some uid) = true ↔
          0 ≤ gs.current_turn ∧ gs.current_turn < (gs.players.length : Int) ∧
            (gs.players.get? gs.current_turn.toNat).map Player.id = some uid)
    ∧ isMyTurn (some gsThreePlayers) (some 7) = true := by
  refine ⟨?_, by decide⟩
  intro gs uid
  unfold isMyTurn
  by_cases h : gs.current_turn < 0 ∨ (gs.players.length : Int) ≤ gs.current_turn
  · simp only [if_pos h]
    constructor
    · intro hfalse; cases hfalse
    · rintro ⟨h1, h2, -⟩; omega
  · simp only [if_neg h]
    push_neg at h
    have hlt : gs.current_turn.toNat < gs.players.length := by omega
    rw [List.get?_eq_get hlt]
    simp only [Option.map_some]
    constructor
    · intro hp
      refine ⟨by omega, by omega, ?_⟩
      simpa using hp
    · rintro ⟨-, -, hp⟩
      simpa using hp

/-- C10: the ActionGate helpers are total at the public interface: with no
published game state, an unknown local user id, or a local player absent
from `players`, `isMyTurn` is false, `getCurrentPlayer` is `none`,
`canCheck` is false and `callAmount` is 0; `callAmount` is always
nonnegative. -/
theorem action_gate_total :
    (∀ uid, isMyTurn none uid = false)
    ∧ (∀ gs, isMyTurn gs none = false)
    ∧ (∀ uid, getCurrentPlayer none uid = none)
    ∧ (∀ gs, getCurrentPlayer gs none = none)
    ∧ (∀ uid, canCheck none uid = false)
    ∧ (∀ gs, canCheck gs none = false)
    ∧ (∀ uid, callAmount none uid = 0)
    ∧ (∀ gs, callAmount gs none = 0)
    ∧ (∀ (gs : GameState) (uid : Int), (∀ p ∈ gs.players, p.id ≠ uid) →
        getCurrentPlayer (some gs) (some uid) = none
        ∧ isMyTurn (some gs) (some uid) = false
        ∧ canCheck (some gs) (some uid) = false
        ∧ callAmount (some gs) (some uid) = 0)
    ∧ (∀ gs uid, 0 ≤ callAmount gs uid) := by
  refine ⟨?_, ?_, ?_, ?_, ?_, ?_, ?_, ?_, ?_, ?_⟩
  · intro uid; rfl
  · intro gs; cases gs <;> rfl
  · intro uid; rfl
  · intro gs; cases gs <;> rfl
  · intro uid; rfl
  · intro gs; cases gs <;> rfl
  · intro uid; rfl
  · intro gs; cases gs <;> rfl
  · intro gs uid habsent
    have hfind : gs.players.find? (fun p => p.id = uid) = none := by
      rw [List.find?_eq_none]
      intro p hp
      simpa using habsent p hp
    have hcur : getCurrentPlayer (some gs) (some uid) = none := by
      simpa [getCurrentPlayer] using hfind
    refine ⟨hcur, ?_, ?_, ?_⟩
    · unfold isMyTurn
      by_cases h : gs.current_turn < 0 ∨ (gs.players.length : Int) ≤ gs.current_turn
      · simp only [if_pos h]
      · simp only [if_neg h]
        push_neg at h
        have hlt : gs.current_turn.toNat < gs.players.length := by omega
        rw [List.get?_eq_get hlt]
        have hmem := List.get_mem gs.players gs.current_turn.toNat hlt
        have := habsent _ hmem
        simpa using this
    · simp [canCheck, hcur]
    · simp [callAmount, hcur]
  · intro gs uid
    unfold callAmount
    cases h : getCurrentPlayer gs uid with
    | none => cases gs <;> simp
    | some p => cases gs with
      | none => simp
      | some g => simp

theorem action_gate_total_witness :
    getCurrentPlayer (some gsOnePlayer) (some 2) = none
    ∧ isMyTurn (some gsOnePlayer) (some 2) = false
    ∧ canCheck (some gsOnePlayer) (some 2) = false
    ∧ callAmount (some gsOnePlayer) (some 2) = 0 :=
  action_gate_total.2.2.2.2.2.2.2.2.1 gsOnePlayer 2 (by decide)

/-- C6 counterexample: with big blind 20 and the local player holding 15
chips, the proposed raise of 20 passes the local guard and the request is
dispatched to the network, although 20 exceeds the 15-chip stack — the
claimed `amount > chips` check does not exist and not every amount fails. -/
theorem raise_above_stack_sent_counterexample :
    handleActionSendsRequest (some gsShortStack) "raise" 20 = true
    ∧ (getCurrentPlayer (some gsShortStack) (some 7)).map Player.chips = some 15
    ∧ gsShortStack.big_blind = 20 ∧ (15 : Int) < 20 := by
  decide

/-- C6 (amended): the local raise guard checks only the big blind: a raise
request is dispatched iff the amount is at least `big_blind`; the player
chip stack is never consulted client-side. -/
theorem raise_gate_checks_only_big_blind (gs : GameState) (amount : Int) :
    handleActionSendsRequest (some gs) "raise" amount = true ↔ gs.big_blind ≤ amount := by
  simp [handleActionSendsRequest, not_lt]

/-- C9: a 2xx table-listing response is accepted both as a bare array and
as a `tables` wrapper object, and the two shapes carrying the same entries
normalize to the identical sequence. -/
theorem apiTables_accepts_both_shapes (initData : Option String)
    (t1 t2 : ReqShape → TransportResult) (ts : List Json) (b1 b2 : String)
    (h1 : t1 ⟨"tables", initData, buildUrl initData []⟩ =
        .resp ⟨200, true, Json.arr ts, b1⟩)
    (h2 : t2 ⟨"tables", initData, buildUrl initData []⟩ =
        .resp ⟨200, true, Json.obj [("tables", Json.arr ts)], b2⟩) :
    apiTables initData t1 = Except.ok ts ∧ apiTables initData t2 = Except.ok ts := by
  constructor
  · simp [apiTables, request, h1, HttpResponse.ok, normalizeTables]
  · simp [apiTables, request, h2, HttpResponse.ok, normalizeTables, List.find?]

theorem apiTables_accepts_both_shapes_witness :
    apiTables none tpArrPayload = Except.ok [Json.str "t"]
    ∧ apiTables none tpWrappedPayload = Except.ok [Json.str "t"] :=
  apiTables_accepts_both_shapes none tpArrPayload tpWrappedPayload
    [Json.str "t"] "" "" rfl rfl

/-- C1: with a Telegram credential, a first attempt classified 401 and no
caller-supplied `user_id`, the gateway performs exactly one further
attempt with `user_id=1` appended and returns the classification of that
second attempt; every call makes at most two round trips; a dev-mode call
or one that already carried `user_id` is never retried. -/
theorem apiGet_retry_policy :
    (∀ (s path : String) (query : List (String × String))
        (transport : ReqShape → TransportResult) (r1 r2 : HttpResponse),
        uspHas (foldQuery query) "user_id" = false →
        transport ⟨path, some s, foldQuery query⟩ = .resp r1 →
        r1.status = 401 →
        transport ⟨path, some s, uspSet (foldQuery query) "user_id" "1"⟩ = .resp r2 →
        apiGet (some s) path query transport =
          (classifyGet r2,
           [⟨path, some s, foldQuery query⟩,
            ⟨path, some s, uspSet (foldQuery query) "user_id" "1"⟩]))
    ∧ (∀ initData path query transport,
        ((apiGet initData path query transport).2).length ≤ 2)
    ∧ (∀ path query transport, ((apiGet none path query transport).2).length = 1)
    ∧ (∀ s path query transport, uspHas (foldQuery query) "user_id" = true →
        ((apiGet (some s) path query transport).2).length = 1) := by
  have hb : ∀ (s : String) (query : List (String × String)),
      buildUrl (some s) query = foldQuery query := by
    intro s query; simp [buildUrl]
  refine ⟨?_, ?_, ?_, ?_⟩
  · intro s path query transport r1 r2 hq h1 hs h2
    simp only [apiGet, hb, h1, hs, hq]
    simp [h2]
  · intro initData path query transport
    simp only [apiGet]
    split
    · simp
    · split
      · split <;> simp
      · simp
  · intro path query transport
    simp only [apiGet]
    split
    · rfl
    · simp
  · intro s path query transport hq
    simp only [apiGet, hb, hq]
    split
    · rfl
    · simp

theorem apiGet_retry_policy_witness :
    apiGet (some "tg") "health" [] tpUntilDevId =
      (Outcome.success (Json.obj []),
       [⟨"health", some "tg", []⟩, ⟨"health", some "tg", [("user_id", "1")]⟩]) := by
  have h := apiGet_retry_policy.1 "tg" "health" [] tpUntilDevId
      ⟨401, false, Json.null, "unauth"⟩ ⟨200, true, Json.obj [], ""⟩
      (by decide) rfl rfl rfl
  exact h

/-- C4 counterexample: when the fetch itself throws, the exception is not
caught by the gateway: `request` yields the raw transport exception, which
is none of the four typed `RequestOutcome` variants — refuting the claim
that a raw transport exception never surfaces past the gateway. -/
theorem raw_exception_escapes_counterexample :
    request (some "tg") "tables" [] tpThrow =
      Outcome.rawExn "TypeError: Failed to fetch"
    ∧ (request (some "tg") "tables" [] tpThrow).isTyped = false :=
  ⟨rfl, rfl⟩

/-- C4 (amended): whenever the transport yields an HTTP response, exactly
one of the four typed variants is produced; only a thrown transport
exception escapes the gateway raw. -/
theorem request_typed_outcome_on_http_response (initData : Option String)
    (path : String) (query : List (String × String))
    (transport : ReqShape → TransportResult)
    (h : ∀ q, ∃ r, transport q = TransportResult.resp r) :
    (request initData path query transport).isTyped = true := by
  obtain ⟨r, hr⟩ := h ⟨path, initData, buildUrl initData query⟩
  simp only [request, hr]
  split
  · rfl
  · split
    · rfl
    · split
      · rfl
      · split <;> rfl

theorem request_typed_outcome_witness :
    (request none "tables" [] tpServerError).isTyped = true :=
  request_typed_outcome_on_http_response none "tables" [] tpServerError
    (fun _ => ⟨⟨500, false, Json.null, "boom"⟩, rfl⟩)

/-- C5 counterexample: with a Telegram credential available and the caller
supplying an explicit `user_id` query parameter, the single outgoing
request (no fallback retry in progress) carries both the
`X-Telegram-Init-Data` header and the `user_id` parameter — refuting the
claimed mutual exclusivity in exactly the case the claim singles out. -/
theorem header_and_dev_param_coexist_counterexample :
    (apiGet (some "tg-init") "user/stats" [("user_id", "5")] tpOk).2 =
      [⟨"user/stats", some "tg-init", [("user_id", "5")]⟩]
    ∧ (⟨"user/stats", some "tg-init", [("user_id", "5")]⟩ : ReqShape).tgHeader.isSome = true
    ∧ uspHas [("user_id", "5")] "user_id" = true :=
  ⟨rfl, rfl, rfl⟩

/-- C5 (amended): when the caller does not supply `user_id`, the first
attempt never carries both the credential header and the synthetic-id
parameter; only the one-shot 401 fallback retry may carry both. -/
theorem first_attempt_never_both (initData : Option String) (path : String)
    (query : List (String × String)) (transport : ReqShape → TransportResult)
    (hq : uspHas (foldQuery query) "user_id" = false) :
    ∀ r, ((apiGet initData path query transport).2).head? = some r →
      ¬(r.tgHeader.isSome = true ∧ uspHas r.params "user_id" = true) := by
  intro r hr
  have hhead : ((apiGet initData path query transport).2).head? =
      some ⟨path, initData, buildUrl initData query⟩ := by
    simp only [apiGet]
    split
    · rfl
    · split
      · split <;> rfl
      · rfl
  rw [hhead] at hr
  injection hr with hr
  subst hr
  rcases initData with _ | s
  · rintro ⟨h1, -⟩
    simp at h1
  · rintro ⟨-, h2⟩
    have hbu : buildUrl (some s) query = foldQuery query := by simp [buildUrl]
    rw [hbu, hq] at h2
    cases h2

theorem first_attempt_never_both_witness :
    ¬((⟨"game/state/x", some "tg", [("table", "x")]⟩ : ReqShape).tgHeader.isSome = true
      ∧ uspHas [("table", "x")] "user_id" = true) :=
  first_attempt_never_both (some "tg") "game/state/x" [("table", "x")] tpOk
    (by decide) ⟨"game/state/x", some "tg", [("table", "x")]⟩ rfl

/-- C7: a request issued without a Telegram init payload (dev mode) makes
a single round trip that never carries the credential header and always
carries the `user_id` parameter — with the fixed value `1` unless the
caller supplied one explicitly, in which case the caller value is kept. -/
theorem dev_mode_request_shape (path : String) (query : List (String × String))
    (transport : ReqShape → TransportResult) :
    ((apiGet none path query transport).2).length = 1
    ∧ ∀ r ∈ (apiGet none path query transport).2,
        r.tgHeader = none
        ∧ uspHas r.params "user_id" = true
        ∧ (uspHas (foldQuery query) "user_id" = false →
            uspGet r.params "user_id" = some "1")
        ∧ (∀ v, uspGet (foldQuery query) "user_id" = some v →
            uspGet r.params "user_id" = some v) := by
  have htrace : (apiGet none path query transport).2 =
      [⟨path, none, buildUrl none query⟩] := by
    simp only [apiGet]
    split
    · rfl
    · simp
  refine ⟨by rw [htrace]; rfl, ?_⟩
  intro r hrmem
  rw [htrace] at hrmem
  simp only [List.mem_singleton] at hrmem
  subst hrmem
  refine ⟨rfl, ?_, ?_, ?_⟩
  · by_cases hq : uspHas (foldQuery query) "user_id"
    · simp [buildUrl, hq]
    · simp only [buildUrl, Option.isNone_none, Bool.true_and,
        Bool.eq_false_iff.mpr hq]
      simpa using uspHas_set_same (foldQuery query) "user_id" "1"
  · intro hq
    simp only [buildUrl, Option.isNone_none, Bool.true_and, hq]
    simpa using uspGet_set_same (foldQuery query) "user_id" "1"
  · intro v hv
    have hq := uspHas_of_uspGet (foldQuery query) "user_id" v hv
    simpa [buildUrl, hq] using hv

theorem dev_mode_request_shape_witness :
    (⟨"user/stats", none, [("foo", "bar"), ("user_id", "1")]⟩ : ReqShape).tgHeader = none
    ∧ uspGet [("foo", "bar"), ("user_id", "1")] "user_id" = some "1" := by
  have h := (dev_mode_request_shape "user/stats" [("foo", "bar")] tpOk).2
      ⟨"user/stats", none, [("foo", "bar"), ("user_id", "1")]⟩ (by decide)
  exact ⟨h.1, h.2.2.1 (by decide)⟩

/-- C2 counterexample: after selecting T1 and then immediately T2, the
in-flight response issued for T1 that resolves after the switch is not
discarded: it still replaces the published game state while T2 is the
selected table — the claimed tag-against-selection guard does not exist. -/
theorem stale_response_updates_state_counterexample :
    (run [Event.selectGame "T1", Event.selectGame "T2",
          Event.resolve "T1" (PollResult.resp 200 gsDemo)]).selectedGame = some "T2"
    ∧ (run [Event.selectGame "T1", Event.selectGame "T2",
            Event.resolve "T1" (PollResult.resp 200 gsDemo)]).gameState = some gsDemo := by
  decide

/-- C2 (amended): a resolving 2xx response always replaces the published
game state, regardless of whether the table it was issued for is still
the selected one; switching tables only re-arms the timer with the new
id, so no new requests for the old table are issued after the switch. -/
theorem resolve_ok_always_applied (s : SyncState) (tag : String) (st : Nat)
    (data : GameState) (h : tag ∈ s.inflight) (hok : 200 ≤ st ∧ st ≤ 299) :
    ((step s (Event.resolve tag (PollResult.resp st data))).gameState = some data
      ∧ (step s (Event.resolve tag (PollResult.resp st data))).errorMsg = none)
    ∧ ∀ id, (step s (Event.selectGame id)).intervalId = some id := by
  constructor
  · simp [step, h, fetchGameStateOnResolve, hok]
  · intro id
    simp [step, applyEffect]

theorem resolve_ok_always_applied_witness :
    (step sPolling (Event.resolve "T1" (PollResult.resp 200 gsDemo))).gameState = some gsDemo
    ∧ (step sPolling (Event.selectGame "T3")).intervalId = some "T3" :=
  ⟨(resolve_ok_always_applied sPolling "T1" 200 gsDemo (by decide) (by decide)).1.1,
   (resolve_ok_always_applied sPolling "T1" 200 gsDemo (by decide) (by decide)).2 "T3"⟩

/-- C3 counterexample: a poll resolving 404 stops the timer, deselects the
table and returns to the lobby, but the published game state is retained,
not discarded — refuting the claimed clearing of `GameState`. -/
theorem notFound_keeps_gameState_counterexample :
    (run [Event.selectGame "T1", Event.resolve "T1" (PollResult.resp 200 gsDemo),
          Event.tick, Event.resolve "T1" (PollResult.resp 404 gsDemo)]).intervalId = none
    ∧ (run [Event.selectGame "T1", Event.resolve "T1" (PollResult.resp 200 gsDemo),
            Event.tick, Event.resolve "T1" (PollResult.resp 404 gsDemo)]).selectedGame = none
    ∧ (run [Event.selectGame "T1", Event.resolve "T1" (PollResult.resp 200 gsDemo),
            Event.tick, Event.resolve "T1" (PollResult.resp 404 gsDemo)]).view = View.lobby
    ∧ (run [Event.selectGame "T1", Event.resolve "T1" (PollResult.resp 200 gsDemo),
            Event.tick, Event.resolve "T1" (PollResult.resp 404 gsDemo)]).gameState = some gsDemo := by
  decide

/-- C3 (amended): a poll resolving 404 is terminal — it disarms the timer,
deselects the table, returns the view to the lobby and surfaces the
not-found error — but it retains (does not clear) the published game
state; any other non-2xx status or a transport error changes nothing, so
the last known state is kept and polling continues. -/
theorem notFound_stops_polling_but_retains_state (s : SyncState) (tag : String)
    (st : Nat) (e : String) (data : GameState)
    (h : tag ∈ s.inflight) (hst : ¬(200 ≤ st ∧ st ≤ 299)) (h404 : st ≠ 404) :
    ((step s (Event.resolve tag (PollResult.resp 404 data))).intervalId = none
      ∧ (step s (Event.resolve tag (PollResult.resp 404 data))).selectedGame = none
      ∧ (step s (Event.resolve tag (PollResult.resp 404 data))).view = View.lobby
      ∧ (step s (Event.resolve tag (PollResult.resp 404 data))).gameState = s.gameState
      ∧ (step s (Event.resolve tag (PollResult.resp 404 data))).errorMsg =
          some "Game not found")
    ∧ ((step s (Event.resolve tag (PollResult.resp st data))).gameState = s.gameState
      ∧ (step s (Event.resolve tag (PollResult.resp st data))).intervalId = s.intervalId
      ∧ (step s (Event.resolve tag (PollResult.resp st data))).selectedGame = s.selectedGame
      ∧ (step s (Event.resolve tag (PollResult.resp st data))).view = s.view)
    ∧ ((step s (Event.resolve tag (PollResult.exn e))).gameState = s.gameState
      ∧ (step s (Event.resolve tag (PollResult.exn e))).intervalId = s.intervalId) := by
  refine ⟨?_, ?_, ?_⟩
  · simp [step, h, fetchGameStateOnResolve, applyEffect]
  · simp [step, h, fetchGameStateOnResolve, hst, h404]
  · simp [step, h, fetchGameStateOnResolve]

theorem notFound_stops_polling_witness :
    (step sPollingT1 (Event.resolve "T1" (PollResult.resp 404 gsDemo))).intervalId = none
    ∧ (step sPollingT1 (Event.resolve "T1" (PollResult.resp 404 gsDemo))).gameState =
        some gsDemo := by
  have h := notFound_stops_polling_but_retains_state sPollingT1 "T1" 500 "boom" gsDemo
      (by decide) (by decide) (by decide)
  exact ⟨h.1.1, by rw [h.1.2.2.2.1]; rfl⟩

end PokerBot
